import Mathlib

/-!
Verification development for the chunk-meshing core of the repository
(`Source/Core/ChunkMesh.cpp`).  The meshing pipeline is embedded shallowly:
grids are total functions from coordinates to blocks / light values, the
per-voxel classification and emission logic mirrors the branch structure of
`ChunkMesh::ConstructMesh`, and the parallel tile traversal is modelled as a
partition of the scan volume whose per-tile buffers are concatenated.

`Block.h` / `Chunk.h` / the `_GetChunkDataForMeshing` lookup are not among the
available sources; the data they define (block predicates, the neighborhood
shape) is modelled from the specification and marked as such below.

Naming note: the source predicate `Block::IsOpaque()` is embedded under the
name `isSolid` (the natural Lean spelling of that predicate is not available
here); every other name follows the source.
-/

namespace Minecraft

/-- The six cube-aligned face directions (`BlockFaceType` in the source). -/
inductive BlockFaceType
  | top
  | bottom
  | front
  | backward
  | left
  | right
deriving DecidableEq, Repr

/-- Modelled from the spec: `Block.h` is not among the sources.  A block is a
type tag (with distinguished air and water values) together with its derived
material predicates (spec section 3).  `isSolid` embeds the source predicate
`Block::IsOpaque()`. -/
structure Block where
  ty : Nat
  isSolid : Bool
  isTransparent : Bool
  castsShadow : Bool
  isModel : Bool
deriving DecidableEq, Repr

/-- Modelled from the spec: the distinguished air type tag. -/
def airTy : Nat := 0

/-- Modelled from the spec: the distinguished water type tag. -/
def waterTy : Nat := 1

/-- Modelled from the spec: an air cell is not opaque, is see-through, casts no
shadow and is not a model block. -/
def airBlock : Block :=
  { ty := airTy, isSolid := false, isTransparent := true,
    castsShadow := false, isModel := false }

/-- The GPU vertex layout (`Vertex` in the source): position, atlas texture
coordinates, dynamic light, and the static directional shading constant. -/
structure Vertex where
  position : Nat × Nat × Nat
  texture_coords : Nat × Nat
  lighting_level : Nat
  block_face_lighting : Nat
deriving DecidableEq, Repr

/-- One emitted quad face: the four vertices pushed by one `emit_face_local`
call, in push order. -/
structure Quad where
  v1 : Vertex
  v2 : Vertex
  v3 : Vertex
  v4 : Vertex
deriving DecidableEq, Repr

/-- The four (u, v) atlas corner pairs returned by
`BlockDatabase::GetBlockTexture` (an 8-entry `uint16_t` array in the source,
grouped here into corner pairs). -/
structure Tex8 where
  c1 : Nat × Nat
  c2 : Nat × Nat
  c3 : Nat × Nat
  c4 : Nat × Nat
deriving DecidableEq, Repr

/-- One vertex of the fixed per-type model geometry (`Model::p_ModelVertices`
entries: a position offset and texture coordinates). -/
structure MVert where
  position : Nat × Nat × Nat
  tex_coords : Nat × Nat
deriving DecidableEq, Repr

/-- The external collaborators of the mesher (spec section 6): the atlas
lookup and the model-geometry registry. -/
structure Env where
  getBlockTexture : Nat → BlockFaceType → Tex8
  modelVertices : Nat → List MVert

/-- The compile-time chunk extents `CHUNK_SIZE_X/Y/Z`. -/
structure Dims where
  X : Nat
  Y : Nat
  Z : Nat
deriving DecidableEq, Repr

/-- A chunk's read-only data as borrowed by the mesher: the dense block grid
(`p_ChunkContents`) and the index-aligned light grid
(`p_ChunkLightInformation`), both as total functions of (x, y, z). -/
structure ChunkData where
  blocks : Nat → Nat → Nat → Block
  lights : Nat → Nat → Nat → Nat

/-- Shadow column scan (`HasShadow` in the source): the loop runs `i` from
`y + 1` while `i < y + max_shadow` with `max_shadow = 24`, skipping rows at or
above `CHUNK_SIZE_Y`, and reports whether any scanned cell casts a shadow. -/
def HasShadow (d : Dims) (c : ChunkData) (x y z : Nat) : Bool :=
  (List.range' (y + 1) (24 - 1)).any fun i =>
    decide (i < d.Y) && (c.blocks x i z).castsShadow

/-- Per-direction face geometry: the four vertex corner positions in push
order, the default ambient shading constant, and the UV reversal flag. -/
structure FaceGeom where
  p1 : Nat × Nat × Nat
  p2 : Nat × Nat × Nat
  p3 : Nat × Nat × Nat
  p4 : Nat × Nat × Nat
  bfl : Nat
  rev : Bool
deriving DecidableEq, Repr

/-- The `switch (face_type)` of `emit_face_local`: corner positions are the
chunk-local translation plus the fixed 2D plane corners (`m_TopFace` etc.),
taken in the per-direction vertex order of the source; `bfl` is the entry of
`lighting_levels = [10, 3, 6, 7, 6, 7]` used by that case (with the top face
shadow adjustment), and `rev` is `reverse_texture_coordinates`. -/
def faceGeom (d : Dims) (c : ChunkData) (face_type : BlockFaceType)
    (x y z : Nat) : FaceGeom :=
  match face_type with
  | .top =>
    let fl := if HasShadow d c x y z then 10 - 2 else 10
    { p1 := (x, y + 1, z), p2 := (x + 1, y + 1, z),
      p3 := (x + 1, y + 1, z + 1), p4 := (x, y + 1, z + 1),
      bfl := fl, rev := false }
  | .bottom =>
    { p1 := (x, y, z + 1), p2 := (x + 1, y, z + 1),
      p3 := (x + 1, y, z), p4 := (x, y, z),
      bfl := 3, rev := true }
  | .front =>
    { p1 := (x, y + 1, z + 1), p2 := (x + 1, y + 1, z + 1),
      p3 := (x + 1, y, z + 1), p4 := (x, y, z + 1),
      bfl := 6, rev := true }
  | .backward =>
    { p1 := (x, y, z), p2 := (x + 1, y, z),
      p3 := (x + 1, y + 1, z), p4 := (x, y + 1, z),
      bfl := 7, rev := false }
  | .left =>
    { p1 := (x, y, z + 1), p2 := (x, y, z),
      p3 := (x, y + 1, z), p4 := (x, y + 1, z + 1),
      bfl := 6, rev := true }
  | .right =>
    { p1 := (x + 1, y + 1, z + 1), p2 := (x + 1, y + 1, z),
      p3 := (x + 1, y, z), p4 := (x + 1, y, z + 1),
      bfl := 7, rev := false }

/-- The face emitter `emit_face_local`: builds the quad for one visible face.
All four vertices share the sampled `light_level` and the per-direction
shading constant; a water block overrides that constant to 85; texture
corners are assigned in forward or reversed order per the reversal flag. -/
def emit_face_local (env : Env) (d : Dims) (c : ChunkData)
    (face_type : BlockFaceType) (position : Nat × Nat × Nat)
    (ty : Nat) (light_level : Nat) : Quad :=
  let x := position.1
  let y := position.2.1
  let z := position.2.2
  let fg := faceGeom d c face_type x y z
  let bfl := if ty = waterTy then 85 else fg.bfl
  let tex := env.getBlockTexture ty face_type
  let t1 := if fg.rev then tex.c4 else tex.c1
  let t2 := if fg.rev then tex.c3 else tex.c2
  let t3 := if fg.rev then tex.c2 else tex.c3
  let t4 := if fg.rev then tex.c1 else tex.c4
  { v1 := { position := fg.p1, texture_coords := t1,
            lighting_level := light_level, block_face_lighting := bfl },
    v2 := { position := fg.p2, texture_coords := t2,
            lighting_level := light_level, block_face_lighting := bfl },
    v3 := { position := fg.p3, texture_coords := t3,
            lighting_level := light_level, block_face_lighting := bfl },
    v4 := { position := fg.p4, texture_coords := t4,
            lighting_level := light_level, block_face_lighting := bfl } }

/-- The model emitter `add_model_local`: every model vertex is translated by
the voxel position, keeps its texture coordinates, carries the passed light
level, and carries the shadow-adjusted constant (10, or 8 under a shadow). -/
def add_model_local (env : Env) (d : Dims) (c : ChunkData)
    (x y z : Nat) (ty : Nat) (light_level : Nat) : List Vertex :=
  let face_light := if HasShadow d c x y z then 10 - 2 else 10
  (env.modelVertices ty).map fun mv =>
    { position := (x + mv.position.1, y + mv.position.2.1, z + mv.position.2.2),
      texture_coords := mv.tex_coords,
      lighting_level := light_level,
      block_face_lighting := face_light }

/-- The read-only inputs of one mesh build: the external collaborators, the
chunk extents, this chunk's data, and the four resolved horizontal neighbor
chunks (forward, backward, right, left). -/
structure MeshInput where
  env : Env
  d : Dims
  c : ChunkData
  fwd : ChunkData
  bwd : ChunkData
  rgt : ChunkData
  lft : ChunkData

/-- The transparent-shell visibility condition the source repeats at every
transparent branch: the neighboring block is transparent and of a different
block type. -/
def transparent_face_cond (blk nb : Block) : Bool :=
  nb.isTransparent && nb.ty != blk.ty

/-- The solid-block visibility condition the source repeats at every
non-transparent branch: `nb.IsOpaque() == false`. -/
def solid_face_cond (nb : Block) : Bool :=
  !nb.isSolid

/-- The visibility test the source actually applies to an examined neighbor:
each direction group of `ConstructMesh` branches once on
`blk.IsTransparent()` and then tests every examined neighbor with the
transparent-shell condition (transparent case) or the not-opaque condition
(solid case). -/
def face_vis_cond (blk nb : Block) : Bool :=
  if blk.isTransparent then transparent_face_cond blk nb
  else solid_face_cond nb

/-- Z-direction face emission for one voxel: the `// Z faces (front/back)`
branch chain of `ConstructMesh`.  Each entry records the destination stream
(`true` = the main stream) and the emitted quad, in source push order.  At the
two Z boundaries one satisfied condition emits both the front and the
backward face with the same sampled light. -/
def zFaceCalls (mi : MeshInput) (blk : Block) (x y z : Nat) :
    List (Bool × Quad) :=
  let e := fun ft ll op => (op, emit_face_local mi.env mi.d mi.c ft (x, y, z) blk.ty ll)
  if z = 0 then
    if blk.isTransparent then
      if transparent_face_cond blk (mi.bwd.blocks x y (mi.d.Z - 1)) then
        let ll := mi.bwd.lights x y (mi.d.Z - 1)
        [e .front ll false, e .backward ll false]
      else if transparent_face_cond blk (mi.c.blocks x y 1) then
        let ll := mi.c.lights x y 1
        [e .front ll false, e .backward ll false]
      else []
    else
      if solid_face_cond (mi.bwd.blocks x y (mi.d.Z - 1)) then
        let ll := mi.bwd.lights x y (mi.d.Z - 1)
        [e .front ll true, e .backward ll true]
      else if solid_face_cond (mi.c.blocks x y 1) then
        let ll := mi.c.lights x y 1
        [e .front ll true, e .backward ll true]
      else []
  else if mi.d.Z - 1 ≤ z then
    if blk.isTransparent then
      if transparent_face_cond blk (mi.fwd.blocks x y 0) then
        let ll := mi.fwd.lights x y 0
        [e .front ll false, e .backward ll false]
      else if transparent_face_cond blk (mi.c.blocks x y (mi.d.Z - 2)) then
        let ll := mi.c.lights x y (mi.d.Z - 2)
        [e .front ll false, e .backward ll false]
      else []
    else
      if solid_face_cond (mi.fwd.blocks x y 0) then
        let ll := mi.fwd.lights x y 0
        [e .front ll true, e .backward ll true]
      else if solid_face_cond (mi.c.blocks x y (mi.d.Z - 2)) then
        let ll := mi.c.lights x y (mi.d.Z - 2)
        [e .front ll true, e .backward ll true]
      else []
  else
    if blk.isTransparent then
      (if transparent_face_cond blk (mi.c.blocks x y (z + 1)) then
        [e .front (mi.c.lights x y (z + 1)) false] else []) ++
      (if transparent_face_cond blk (mi.c.blocks x y (z - 1)) then
        [e .backward (mi.c.lights x y (z - 1)) false] else [])
    else
      (if solid_face_cond (mi.c.blocks x y (z + 1)) then
        [e .front (mi.c.lights x y (z + 1)) true] else []) ++
      (if solid_face_cond (mi.c.blocks x y (z - 1)) then
        [e .backward (mi.c.lights x y (z - 1)) true] else [])

/-- X-direction face emission for one voxel: the `// X faces (left/right)`
branch chain.  Note the source push orders: at `x = 0` the cross-chunk branch
pushes left then right but the inward branch pushes right then left; at
`x = X - 1` both branches push left then right. -/
def xFaceCalls (mi : MeshInput) (blk : Block) (x y z : Nat) :
    List (Bool × Quad) :=
  let e := fun ft ll op => (op, emit_face_local mi.env mi.d mi.c ft (x, y, z) blk.ty ll)
  if x = 0 then
    if blk.isTransparent then
      if transparent_face_cond blk (mi.lft.blocks (mi.d.X - 1) y z) then
        let ll := mi.lft.lights (mi.d.X - 1) y z
        [e .left ll false, e .right ll false]
      else if transparent_face_cond blk (mi.c.blocks 1 y z) then
        let ll := mi.c.lights 1 y z
        [e .right ll false, e .left ll false]
      else []
    else
      if solid_face_cond (mi.lft.blocks (mi.d.X - 1) y z) then
        let ll := mi.lft.lights (mi.d.X - 1) y z
        [e .left ll true, e .right ll true]
      else if solid_face_cond (mi.c.blocks 1 y z) then
        let ll := mi.c.lights 1 y z
        [e .right ll true, e .left ll true]
      else []
  else if mi.d.X - 1 ≤ x then
    if blk.isTransparent then
      if transparent_face_cond blk (mi.rgt.blocks 0 y z) then
        let ll := mi.rgt.lights 0 y z
        [e .left ll false, e .right ll false]
      else if transparent_face_cond blk (mi.c.blocks (mi.d.X - 2) y z) then
        let ll := mi.c.lights (mi.d.X - 2) y z
        [e .left ll false, e .right ll false]
      else []
    else
      if solid_face_cond (mi.rgt.blocks 0 y z) then
        let ll := mi.rgt.lights 0 y z
        [e .left ll true, e .right ll true]
      else if solid_face_cond (mi.c.blocks (mi.d.X - 2) y z) then
        let ll := mi.c.lights (mi.d.X - 2) y z
        [e .left ll true, e .right ll true]
      else []
  else
    if blk.isTransparent then
      (if transparent_face_cond blk (mi.c.blocks (x + 1) y z) then
        [e .right (mi.c.lights (x + 1) y z) false] else []) ++
      (if transparent_face_cond blk (mi.c.blocks (x - 1) y z) then
        [e .left (mi.c.lights (x - 1) y z) false] else [])
    else
      (if solid_face_cond (mi.c.blocks (x + 1) y z) then
        [e .right (mi.c.lights (x + 1) y z) true] else []) ++
      (if solid_face_cond (mi.c.blocks (x - 1) y z) then
        [e .left (mi.c.lights (x - 1) y z) true] else [])

/-- Y-direction face emission for one voxel: the `// Y faces (top/bottom)`
branch chain.  At `y = 0` only a bottom face can be emitted (gated on the cell
above), carrying the precomputed `light_level`; at `y = Y - 1` a top face is
emitted unconditionally with `light_level`; both go to the main stream even
for transparent blocks.  Interior rows sample the light at the adjacent cell
in the face direction. -/
def yFaceCalls (mi : MeshInput) (blk : Block) (x y z light_level : Nat) :
    List (Bool × Quad) :=
  let e := fun ft ll op => (op, emit_face_local mi.env mi.d mi.c ft (x, y, z) blk.ty ll)
  if y = 0 then
    if solid_face_cond (mi.c.blocks x (y + 1) z) then
      [e .bottom light_level true]
    else []
  else if mi.d.Y - 1 ≤ y then
    [e .top light_level true]
  else
    if blk.isTransparent then
      (if transparent_face_cond blk (mi.c.blocks x (y - 1) z) then
        [e .bottom (mi.c.lights x (y - 1) z) false] else []) ++
      (if transparent_face_cond blk (mi.c.blocks x (y + 1) z) then
        [e .top (mi.c.lights x (y + 1) z) false] else [])
    else
      (if solid_face_cond (mi.c.blocks x (y - 1) z) then
        [e .bottom (mi.c.lights x (y - 1) z) true] else []) ++
      (if solid_face_cond (mi.c.blocks x (y + 1) z) then
        [e .top (mi.c.lights x (y + 1) z) true] else [])

/-- The loop body of the parallel traversal for one voxel: air is skipped;
the working light level is the cell above when `y < Y - 1`, else the voxel's
own cell; a model-flagged block goes to the model emitter; otherwise the Z, X
and Y face groups run in order.  Returns the face emission calls and the
model vertices of this voxel. -/
def voxelCalls (mi : MeshInput) (x y z : Nat) :
    List (Bool × Quad) × List Vertex :=
  let blk := mi.c.blocks x y z
  if blk.ty = airTy then ([], [])
  else
    let light_level :=
      if y < mi.d.Y - 1 then mi.c.lights x (y + 1) z else mi.c.lights x y z
    if blk.isModel then
      ([], add_model_local mi.env mi.d mi.c x y z blk.ty light_level)
    else
      (zFaceCalls mi blk x y z ++ xFaceCalls mi blk x y z ++
        yFaceCalls mi blk x y z light_level, [])

/-- The three per-voxel stream contributions: quads pushed to the main
(non-transparent) stream, quads pushed to the transparent stream, and model
vertices. -/
def voxelOut (mi : MeshInput) (p : Nat × Nat × Nat) :
    List Quad × List Quad × List Vertex :=
  let r := voxelCalls mi p.1 p.2.1 p.2.2
  (r.1.filterMap (fun q => if q.1 then some q.2 else none),
   r.1.filterMap (fun q => if q.1 then none else some q.2),
   r.2)

/-- The fixed scan order of the traversal: x (pages), then y (rows), then z
(columns), over the full chunk volume. -/
def fullScan (d : Dims) : List (Nat × Nat × Nat) :=
  (List.range d.X).flatMap fun x =>
    (List.range d.Y).flatMap fun y =>
      (List.range d.Z).map fun z => (x, y, z)

/-- One tile's private buffers: the per-voxel contributions of the tile's
voxels, appended in the tile's scan order. -/
def tileOut (mi : MeshInput) (tile : List (Nat × Nat × Nat)) :
    List Quad × List Quad × List Vertex :=
  (tile.flatMap fun p => (voxelOut mi p).1,
   tile.flatMap fun p => (voxelOut mi p).2.1,
   tile.flatMap fun p => (voxelOut mi p).2.2)

/-- The tiled traversal followed by `merge_tls`: each tile fills its private
buffers independently and the merge concatenates the per-tile buffers of each
stream, in the given tile order. -/
def runTiles (mi : MeshInput) (tiles : List (List (Nat × Nat × Nat))) :
    List Quad × List Quad × List Vertex :=
  (tiles.flatMap fun t => (tileOut mi t).1,
   tiles.flatMap fun t => (tileOut mi t).2.1,
   tiles.flatMap fun t => (tileOut mi t).2.2)

/-- The merged streams of one successful build: the full scan processed as a
single tile (the reference order; any partition merges to a permutation of
this, see the determinism theorems). -/
def ConstructMeshStreams (mi : MeshInput) :
    List Quad × List Quad × List Vertex :=
  tileOut mi (fullScan mi.d)

/-- Modelled from the spec: the neighborhood resolver (`_GetChunkDataForMeshing`
lives in `main.cpp`, which is not among the sources).  Each horizontal
neighbor is an optional (block grid, light grid) pair, per spec section 3. -/
structure Neighborhood where
  forward : Option ChunkData
  backward : Option ChunkData
  right : Option ChunkData
  left : Option ChunkData

/-- Flattening of the quad streams into vertex streams: each quad contributes
its four vertices in push order. -/
def quadsToVertices (l : List Quad) : List Vertex :=
  l.flatMap fun q => [q.v1, q.v2, q.v3, q.v4]

/-- The outcome-level entry point: `ConstructMesh` refuses to build (returns
`none`, the source `return false`) when any of the four neighbor chunks is
absent, and otherwise produces the three merged streams. -/
def ConstructMesh (env : Env) (d : Dims) (c : ChunkData)
    (nb : Neighborhood) : Option (List Quad × List Quad × List Vertex) :=
  match nb.forward, nb.backward, nb.right, nb.left with
  | some f, some b, some r, some l =>
    some (ConstructMeshStreams
      { env := env, d := d, c := c, fwd := f, bwd := b, rgt := r, lft := l })
  | _, _, _, _ => none

/-- The mutable per-mesh state touched by `ConstructMesh`: the three internal
CPU-side vertex vectors and the three public vertex counts. -/
structure MeshState where
  m_Vertices : List Vertex
  m_TransparentVertices : List Vertex
  m_ModelVertices : List Vertex
  p_VerticesCount : Nat
  p_TransparentVerticesCount : Nat
  p_ModelVerticesCount : Nat
deriving DecidableEq, Repr

/-- The stateful `ConstructMesh`: the three internal vectors are cleared
before the neighbor check, so a refusal leaves them empty while the public
counts keep their previous values; on success the counts are reset and set to
the merged sizes (a non-empty vector is uploaded and then cleared, an empty
one is skipped). -/
def ConstructMeshSt (env : Env) (d : Dims) (st : MeshState) (c : ChunkData)
    (nb : Neighborhood) : Bool × MeshState :=
  match nb.forward, nb.backward, nb.right, nb.left with
  | some f, some b, some r, some l =>
    let s := ConstructMeshStreams
      { env := env, d := d, c := c, fwd := f, bwd := b, rgt := r, lft := l }
    let mv := quadsToVertices s.1
    let tv := quadsToVertices s.2.1
    let mm := s.2.2
    (true,
      { m_Vertices := [], m_TransparentVertices := [], m_ModelVertices := [],
        p_VerticesCount := if mv.isEmpty then 0 else mv.length,
        p_TransparentVerticesCount := if tv.isEmpty then 0 else tv.length,
        p_ModelVerticesCount := if mm.isEmpty then 0 else mm.length })
  | _, _, _, _ =>
    (false,
      { st with m_Vertices := [], m_TransparentVertices := [],
                m_ModelVertices := [] })

/-- The number of index entries the constructor's fill loop writes:
`index_size = CHUNK_SIZE_X * CHUNK_SIZE_Y * CHUNK_SIZE_Z * 6` (the loop runs
`i` over multiples of 6 below `index_size`, writing 6 entries each pass). -/
def index_size (d : Dims) : Nat := d.X * d.Y * d.Z * 6

/-- The six index entries the fill loop writes for quad number `k` (the
running `index_offset` is `4 * k`). -/
def quadIndexPattern (k : Nat) : List Nat :=
  [4 * k, 4 * k + 1, 4 * k + 2, 4 * k + 2, 4 * k + 3, 4 * k]

/-- The sequence of index entries actually written by the one-time index
buffer fill loop of the `ChunkMesh` constructor. -/
def indexBufferWritten (d : Dims) : List Nat :=
  (List.range (index_size d / 6)).flatMap quadIndexPattern

/-- The number of `GLuint` entries allocated and uploaded for the shared index
buffer (`new GLuint[index_size * 6]`, uploaded as
`index_size * 6 * sizeof(GLuint)` bytes). -/
def indexBufferAllocEntries (d : Dims) : Nat := index_size d * 6

/-- Index entries needed for the worst case in which every voxel emits all 6
faces: 6 faces per voxel, 6 index entries per face. -/
def worstCaseIndexEntries (d : Dims) : Nat := d.X * d.Y * d.Z * 6 * 6

/-- Uniformity of one emitted face: all four vertices carry the same dynamic
light and the same static shading constant. -/
def uniformQuad (q : Quad) : Prop :=
  (q.v1.lighting_level = q.v2.lighting_level ∧
   q.v1.lighting_level = q.v3.lighting_level ∧
   q.v1.lighting_level = q.v4.lighting_level) ∧
  (q.v1.block_face_lighting = q.v2.block_face_lighting ∧
   q.v1.block_face_lighting = q.v3.block_face_lighting ∧
   q.v1.block_face_lighting = q.v4.block_face_lighting)

/-- The shadow-column span as the claim words it: some cell in the column
directly above the voxel, spanning up to 24 cells (offsets 1 through 24) or
until the grid ceiling, casts a shadow.  Stated for comparison against the
source scan `HasShadow`, whose loop covers offsets 1 through 23 only. -/
def specShadowScan24 (d : Dims) (c : ChunkData) (x y z : Nat) : Bool :=
  (List.range' (y + 1) 24).any fun i =>
    decide (i < d.Y) && (c.blocks x i z).castsShadow

/-- A fixed texture-atlas answer used by the concrete test fixtures. -/
def texA : Tex8 := ⟨(0, 0), (9, 0), (9, 9), (0, 9)⟩

/-- A concrete external environment for the test fixtures: a constant atlas
lookup and a two-vertex model geometry for every type. -/
def env0 : Env :=
  { getBlockTexture := fun _ _ => texA,
    modelVertices := fun _ => [⟨(0, 0, 0), (0, 0)⟩, ⟨(1, 0, 1), (9, 9)⟩] }

/-- A concrete fully solid block (type tag 2): not transparent, casts a
shadow, not a model. -/
def stoneBlock : Block :=
  { ty := 2, isSolid := true, isTransparent := false,
    castsShadow := true, isModel := false }

/-- A concrete water block: transparent, type tag `waterTy`. -/
def waterBlock : Block :=
  { ty := waterTy, isSolid := false, isTransparent := true,
    castsShadow := false, isModel := false }

/-- A concrete transparent non-water block (type tag 3), e.g. leaves. -/
def leafBlock : Block :=
  { ty := 3, isSolid := false, isTransparent := true,
    castsShadow := true, isModel := false }

/-- A concrete model-flagged block (type tag 4), e.g. a flower. -/
def flowerBlock : Block :=
  { ty := 4, isSolid := false, isTransparent := true,
    castsShadow := false, isModel := true }

/-- A chunk whose cells are all air, with zero light everywhere. -/
def airChunk : ChunkData :=
  { blocks := fun _ _ _ => airBlock, lights := fun _ _ _ => 0 }

/-- The 2 x 2 x 2 extents used by several concrete scenarios. -/
def d222 : Dims := ⟨2, 2, 2⟩

/-- The claim C1 scenario chunk: a single solid block at local (0, 0, 0),
everything else air. -/
def chunkC1 : ChunkData :=
  { blocks := fun x y z =>
      if x = 0 ∧ y = 0 ∧ z = 0 then stoneBlock else airBlock,
    lights := fun _ _ _ => 0 }

/-- The claim C1 scenario build input: the chunk above with all four neighbor
chunks present and entirely air. -/
def miC1 : MeshInput :=
  { env := env0, d := d222, c := chunkC1,
    fwd := airChunk, bwd := airChunk, rgt := airChunk, lft := airChunk }

/-- A chunk holding a single solid block at the top row (0, 1, 0), with light
value 7 everywhere in the light grid. -/
def chunkC7 : ChunkData :=
  { blocks := fun x y z =>
      if x = 0 ∧ y = 1 ∧ z = 0 then stoneBlock else airBlock,
    lights := fun _ _ _ => 7 }

/-- Build input for the chunk above (all neighbors present and air). -/
def miC7 : MeshInput :=
  { env := env0, d := d222, c := chunkC7,
    fwd := airChunk, bwd := airChunk, rgt := airChunk, lft := airChunk }

/-- A 26-row-high extent used by the shadow-span scenarios. -/
def d26 : Dims := ⟨2, 26, 2⟩

/-- A chunk whose only shadow-casting block sits exactly 24 cells above the
origin voxel. -/
def chunkC6 : ChunkData :=
  { blocks := fun x y z =>
      if x = 0 ∧ y = 24 ∧ z = 0 then stoneBlock else airBlock,
    lights := fun _ _ _ => 0 }

/-- A chunk whose only shadow-casting block sits 23 cells above the origin
voxel (inside the span the source scan actually covers). -/
def chunkC6b : ChunkData :=
  { blocks := fun x y z =>
      if x = 0 ∧ y = 23 ∧ z = 0 then stoneBlock else airBlock,
    lights := fun _ _ _ => 0 }

/-- A 3 x 3 x 3 chunk with a single water block at the interior cell
(1, 1, 1), everything else air. -/
def chunkW : ChunkData :=
  { blocks := fun x y z =>
      if x = 1 ∧ y = 1 ∧ z = 1 then waterBlock else airBlock,
    lights := fun _ _ _ => 5 }

/-- Build input for the interior-water scenario. -/
def miW : MeshInput :=
  { env := env0, d := ⟨3, 3, 3⟩, c := chunkW,
    fwd := airChunk, bwd := airChunk, rgt := airChunk, lft := airChunk }

/-- A 1 x 1 x 1 build input holding one solid block, used by the tiling
witnesses. -/
def miT : MeshInput :=
  { env := env0, d := ⟨1, 1, 1⟩,
    c := { blocks := fun _ _ _ => stoneBlock, lights := fun _ _ _ => 0 },
    fwd := airChunk, bwd := airChunk, rgt := airChunk, lft := airChunk }

/-- A neighborhood whose forward neighbor is absent. -/
def nbMissing : Neighborhood :=
  ⟨none, some airChunk, some airChunk, some airChunk⟩

/-- A neighborhood with all four neighbors present and air. -/
def nbAll : Neighborhood :=
  ⟨some airChunk, some airChunk, some airChunk, some airChunk⟩

/-- A vertex fixture for pre-populated mesh state. -/
def vtx0 : Vertex := ⟨(0, 0, 0), (0, 0), 0, 0⟩

/-- A mesh state left over from a previous successful build: non-empty
internal vectors and non-zero public counts. -/
def stPrev : MeshState :=
  { m_Vertices := [vtx0], m_TransparentVertices := [vtx0],
    m_ModelVertices := [vtx0],
    p_VerticesCount := 12, p_TransparentVerticesCount := 34,
    p_ModelVerticesCount := 56 }

/-- A one-tile partition of the 1 x 1 x 1 volume. -/
def tilesA : List (List (Nat × Nat × Nat)) := [[(0, 0, 0)]]

/-- A two-tile partition of the 1 x 1 x 1 volume (one tile empty), listed in
a different execution order. -/
def tilesB : List (List (Nat × Nat × Nat)) := [[], [(0, 0, 0)]]

/-! Helper lemmas shared by the claim theorems. -/

theorem count_of_uploaded (l : List Vertex) :
    (if l.isEmpty then 0 else l.length) = l.length := by
  cases l <;> simp

theorem quadsToVertices_length (l : List Quad) :
    (quadsToVertices l).length = 4 * l.length := by
  induction l with
  | nil => rfl
  | cons q t ih =>
    simp only [quadsToVertices, List.flatMap_cons] at ih ⊢
    simp [ih]
    omega

theorem emit_face_local_uniform (env : Env) (d : Dims) (c : ChunkData)
    (face_type : BlockFaceType) (position : Nat × Nat × Nat)
    (ty light_level : Nat) :
    uniformQuad (emit_face_local env d c face_type position ty light_level) := by
  cases face_type <;>
    simp [emit_face_local, faceGeom, uniformQuad]

theorem voxelOut_air (mi : MeshInput) (x y z : Nat)
    (h : (mi.c.blocks x y z).ty = airTy) :
    voxelOut mi (x, y, z) = ([], [], []) := by
  simp [voxelOut, voxelCalls, h]

theorem flatMap_range_zero {α : Type} (n : Nat) (f : Nat → List α)
    (h : ∀ i, 0 < i → f i = []) (hn : 0 < n) :
    (List.range n).flatMap f = f 0 := by
  obtain ⟨m, rfl⟩ := Nat.exists_eq_succ_of_ne_zero hn.ne'
  rw [List.range_succ_eq_map, List.flatMap_cons, List.flatMap_map]
  have hz : (List.range m).flatMap (fun a => f a.succ) = [] := by
    apply List.flatMap_eq_nil_iff.mpr
    intro a _
    show f (a + 1) = []
    exact h (a + 1) (Nat.succ_pos a)
  rw [hz, List.append_nil]

theorem fullScan_flatMap_single {α : Type} (d : Dims)
    (f : Nat × Nat × Nat → List α)
    (hX : 0 < d.X) (hY : 0 < d.Y) (hZ : 0 < d.Z)
    (h : ∀ p, p ≠ (0, 0, 0) → f p = []) :
    (fullScan d).flatMap f = f (0, 0, 0) := by
  unfold fullScan
  rw [List.flatMap_assoc]
  have hx : ∀ i, 0 < i →
      ((List.range d.Y).flatMap fun y =>
        (List.range d.Z).map fun z => (i, y, z)).flatMap f = [] := by
    intro i hi
    apply List.flatMap_eq_nil_iff.mpr
    intro p hp
    simp only [List.mem_flatMap, List.mem_map, List.mem_range] at hp
    obtain ⟨yc, _, zc, _, rfl⟩ := hp
    exact h (i, yc, zc) (by simp [hi.ne'])
  rw [flatMap_range_zero d.X _ hx hX]
  rw [List.flatMap_assoc]
  have hy : ∀ i, 0 < i →
      ((List.range d.Z).map fun z => ((0 : Nat), i, z)).flatMap f = [] := by
    intro i hi
    apply List.flatMap_eq_nil_iff.mpr
    intro p hp
    simp only [List.mem_map, List.mem_range] at hp
    obtain ⟨zc, _, rfl⟩ := hp
    exact h (0, i, zc) (by simp [hi.ne'])
  rw [flatMap_range_zero d.Y _ hy hY]
  rw [List.flatMap_map]
  have hz : ∀ i, 0 < i → f (0, 0, i) = [] := by
    intro i hi
    exact h (0, 0, i) (by simp [hi.ne'])
  rw [flatMap_range_zero d.Z (fun a => f (0, 0, a)) hz hZ]

theorem constructMeshStreams_all_air (mi : MeshInput)
    (h : ∀ x y z, (mi.c.blocks x y z).ty = airTy) :
    ConstructMeshStreams mi = ([], [], []) := by
  unfold ConstructMeshStreams tileOut
  refine Prod.ext ?_ (Prod.ext ?_ ?_) <;>
    · refine List.flatMap_eq_nil_iff.mpr fun p _ => ?_
      have := voxelOut_air mi p.1 p.2.1 p.2.2 (h p.1 p.2.1 p.2.2)
      simp only [this]

theorem length_range_flatMap_quadIndexPattern (n : Nat) :
    ((List.range n).flatMap quadIndexPattern).length = 6 * n := by
  induction n with
  | zero => rfl
  | succ m ih =>
    rw [List.range_succ, List.flatMap_append]
    simp [quadIndexPattern, ih]
    omega

theorem filterMap_ite {α β : Type} (f : α → Option β) (c : Prop)
    [Decidable c] (A B : List α) :
    (if c then A else B).filterMap f =
      if c then A.filterMap f else B.filterMap f := by
  split_ifs <;> rfl

theorem flatMap_flatten {α β : Type} (ts : List (List α)) (g : α → List β) :
    (ts.flatMap fun t => t.flatMap g) = ts.flatten.flatMap g := by
  induction ts with
  | nil => rfl
  | cons t rest ih =>
    simp only [List.flatMap_cons, List.flatten_cons, List.flatMap_append, ih]

theorem mem_zFaceCalls_uniform (mi : MeshInput) (blk : Block) (x y z : Nat) :
    ∀ p ∈ zFaceCalls mi blk x y z, uniformQuad p.2 := by
  intro p hp
  unfold zFaceCalls at hp
  split_ifs at hp <;>
    simp only [List.mem_cons, List.mem_append, List.mem_singleton,
      List.not_mem_nil, or_false, false_or] at hp <;>
    first
      | exact hp.elim
      | (rcases hp with rfl | rfl <;> apply emit_face_local_uniform)
      | (subst hp; apply emit_face_local_uniform)

theorem mem_xFaceCalls_uniform (mi : MeshInput) (blk : Block) (x y z : Nat) :
    ∀ p ∈ xFaceCalls mi blk x y z, uniformQuad p.2 := by
  intro p hp
  unfold xFaceCalls at hp
  split_ifs at hp <;>
    simp only [List.mem_cons, List.mem_append, List.mem_singleton,
      List.not_mem_nil, or_false, false_or] at hp <;>
    first
      | exact hp.elim
      | (rcases hp with rfl | rfl <;> apply emit_face_local_uniform)
      | (subst hp; apply emit_face_local_uniform)

theorem mem_yFaceCalls_uniform (mi : MeshInput) (blk : Block)
    (x y z light_level : Nat) :
    ∀ p ∈ yFaceCalls mi blk x y z light_level, uniformQuad p.2 := by
  intro p hp
  unfold yFaceCalls at hp
  split_ifs at hp <;>
    simp only [List.mem_cons, List.mem_append, List.mem_singleton,
      List.not_mem_nil, or_false, false_or] at hp <;>
    first
      | exact hp.elim
      | (rcases hp with rfl | rfl <;> apply emit_face_local_uniform)
      | (subst hp; apply emit_face_local_uniform)

theorem mem_voxelCalls_uniform (mi : MeshInput) (x y z : Nat) :
    ∀ p ∈ (voxelCalls mi x y z).1, uniformQuad p.2 := by
  intro p hp
  simp only [voxelCalls] at hp
  split_ifs at hp <;>
    first
      | exact absurd hp (List.not_mem_nil p)
      | (simp only [List.mem_append] at hp
         rcases hp with (hp | hp) | hp
         · exact mem_zFaceCalls_uniform mi _ x y z p hp
         · exact mem_xFaceCalls_uniform mi _ x y z p hp
         · exact mem_yFaceCalls_uniform mi _ x y z _ p hp)

theorem mem_voxelOut_main_uniform (mi : MeshInput) (p : Nat × Nat × Nat)
    (q : Quad) (hq : q ∈ (voxelOut mi p).1) : uniformQuad q := by
  simp only [voxelOut, List.mem_filterMap] at hq
  obtain ⟨a, ha, heq⟩ := hq
  by_cases hfl : a.1 = true
  · rw [if_pos hfl] at heq
    obtain rfl : a.2 = q := Option.some.inj heq
    exact mem_voxelCalls_uniform mi p.1 p.2.1 p.2.2 a ha
  · rw [if_neg hfl] at heq
    exact absurd heq (Option.noConfusion)

theorem mem_voxelOut_transp_uniform (mi : MeshInput) (p : Nat × Nat × Nat)
    (q : Quad) (hq : q ∈ (voxelOut mi p).2.1) : uniformQuad q := by
  simp only [voxelOut, List.mem_filterMap] at hq
  obtain ⟨a, ha, heq⟩ := hq
  by_cases hfl : a.1 = true
  · rw [if_pos hfl] at heq
    exact absurd heq (Option.noConfusion)
  · rw [if_neg hfl] at heq
    obtain rfl : a.2 = q := Option.some.inj heq
    exact mem_voxelCalls_uniform mi p.1 p.2.1 p.2.2 a ha

/-! Claim theorems. -/

/-- C5: every face emitted for a block of type water carries
`block_face_lighting = 85` on all four vertices, for every face direction,
every position, every sampled light and every shadow configuration. -/
theorem C5_water_face_lighting (env : Env) (d : Dims) (c : ChunkData)
    (face_type : BlockFaceType) (position : Nat × Nat × Nat)
    (light_level : Nat) :
    (emit_face_local env d c face_type position waterTy light_level).v1.block_face_lighting = 85 ∧
    (emit_face_local env d c face_type position waterTy light_level).v2.block_face_lighting = 85 ∧
    (emit_face_local env d c face_type position waterTy light_level).v3.block_face_lighting = 85 ∧
    (emit_face_local env d c face_type position waterTy light_level).v4.block_face_lighting = 85 := by
  cases face_type <;> simp [emit_face_local, faceGeom]

/-- C6 counterexample: the shadow span as the claim states it (up to 24 cells
above) disagrees with the code.  With the only shadow caster exactly 24 cells
above the voxel, the claim's span contains a caster, yet the emitted top face
of a non-water block keeps the unreduced ambient constant 10. -/
theorem C6_counterexample :
    specShadowScan24 d26 chunkC6 0 0 0 = true ∧
    stoneBlock.ty ≠ waterTy ∧
    (emit_face_local env0 d26 chunkC6 .top (0, 0, 0) stoneBlock.ty 5).v1.block_face_lighting = 10 := by
  refine ⟨by decide, by decide, by decide⟩

/-- C6 amended: for an emitted top face of a non-water block the ambient
constant is 10 reduced by 2 exactly when the source scan `HasShadow` fires,
and that scan covers the cells at offsets 1 through 23 above the voxel
(strictly fewer than 24), clipped at the grid ceiling; the model emitter
applies the same scan starting from constant 10. -/
theorem C6_amended (env : Env) (d : Dims) (c : ChunkData)
    (x y z ty light_level : Nat) (h : ty ≠ waterTy) :
    ((emit_face_local env d c .top (x, y, z) ty light_level).v1.block_face_lighting
        = if HasShadow d c x y z then 10 - 2 else 10) ∧
    ((emit_face_local env d c .top (x, y, z) ty light_level).v2.block_face_lighting
        = if HasShadow d c x y z then 10 - 2 else 10) ∧
    ((emit_face_local env d c .top (x, y, z) ty light_level).v3.block_face_lighting
        = if HasShadow d c x y z then 10 - 2 else 10) ∧
    ((emit_face_local env d c .top (x, y, z) ty light_level).v4.block_face_lighting
        = if HasShadow d c x y z then 10 - 2 else 10) ∧
    (HasShadow d c x y z = true ↔
      ∃ i, y < i ∧ i < y + 24 ∧ i < d.Y ∧ (c.blocks x i z).castsShadow = true) ∧
    (∀ ty2 ll2 : Nat, ∀ v ∈ add_model_local env d c x y z ty2 ll2,
      v.block_face_lighting = if HasShadow d c x y z then 10 - 2 else 10) := by
  refine ⟨?_, ?_, ?_, ?_, ?_, ?_⟩
  · simp [emit_face_local, faceGeom, h]
  · simp [emit_face_local, faceGeom, h]
  · simp [emit_face_local, faceGeom, h]
  · simp [emit_face_local, faceGeom, h]
  · simp only [HasShadow, List.any_eq_true, List.mem_range'_1, Bool.and_eq_true,
      decide_eq_true_eq]
    constructor
    · rintro ⟨i, ⟨h1, h2⟩, h3, h4⟩
      exact ⟨i, by omega, by omega, h3, h4⟩
    · rintro ⟨i, h1, h2, h3, h4⟩
      exact ⟨i, ⟨by omega, by omega⟩, h3, h4⟩
  · intro ty2 ll2 v hv
    simp only [add_model_local, List.mem_map] at hv
    obtain ⟨mv, _, rfl⟩ := hv
    rfl

/-- C6 witness: the amended top-face rule evaluated at a concrete non-water
block with a caster 23 cells above (the scan fires, the constant is 8). -/
theorem C6_witness :
    (2 : Nat) ≠ waterTy ∧
    (emit_face_local env0 d26 chunkC6b .top (0, 0, 0) 2 5).v1.block_face_lighting
      = if HasShadow d26 chunkC6b 0 0 0 then 10 - 2 else 10 :=
  ⟨by decide, (C6_amended env0 d26 chunkC6b 0 0 0 2 5 (by decide)).1⟩

/-- C9: the index-buffer fill loop writes the repeating 0,1,2,2,3,0 pattern
offset by 4 per quad, but it writes only `index_size` entries — one quad per
voxel — while the buffer it allocates and uploads has the worst-case size
(six faces per voxel, `index_size * 6` entries).  Whenever the chunk volume
is non-empty the written pattern is strictly shorter than the uploaded
worst-case buffer, so the claim's fully patterned worst-case buffer is what
the allocation intends and the fill loop fails to deliver. -/
theorem C9_index_buffer (d : Dims) (h : 0 < d.X * d.Y * d.Z) :
    (indexBufferWritten d).length = index_size d ∧
    indexBufferAllocEntries d = worstCaseIndexEntries d ∧
    (∀ k, quadIndexPattern k =
      [4 * k, 4 * k + 1, 4 * k + 2, 4 * k + 2, 4 * k + 3, 4 * k]) ∧
    (indexBufferWritten d).length < worstCaseIndexEntries d := by
  have hdiv : index_size d / 6 = d.X * d.Y * d.Z := by
    unfold index_size
    generalize d.X * d.Y * d.Z = n
    omega
  have hlen : (indexBufferWritten d).length = 6 * (d.X * d.Y * d.Z) := by
    unfold indexBufferWritten
    rw [hdiv, length_range_flatMap_quadIndexPattern]
  refine ⟨?_, ?_, fun k => rfl, ?_⟩
  · rw [hlen]
    unfold index_size
    ring
  · rfl
  · rw [hlen]
    unfold worstCaseIndexEntries
    nlinarith [h]

/-- C9 witness: at extents 2 x 2 x 2 the written pattern (48 entries, 8
quads) is strictly shorter than the uploaded worst-case buffer (288 entries,
48 quads). -/
theorem C9_witness :
    0 < d222.X * d222.Y * d222.Z ∧
    (indexBufferWritten d222).length < worstCaseIndexEntries d222 :=
  ⟨by decide, (C9_index_buffer d222 (by decide)).2.2.2⟩

/-- C2: a build has exactly two outcomes.  The stateful `ConstructMesh`
returns false exactly when one of the four horizontal neighbors is absent,
and with all four present it returns true; an all-air chunk is a valid
success whose three streams (and counts) are all empty. -/
theorem C2_build_outcomes (env : Env) (d : Dims) (st : MeshState)
    (c : ChunkData) (nb : Neighborhood) :
    ((ConstructMeshSt env d st c nb).1 = false ↔
      (nb.forward = none ∨ nb.backward = none ∨ nb.right = none ∨
        nb.left = none)) ∧
    ((∀ x y z, (c.blocks x y z).ty = airTy) →
      ∀ f b r l, nb = ⟨some f, some b, some r, some l⟩ →
        ConstructMeshSt env d st c nb =
          (true,
            { m_Vertices := [], m_TransparentVertices := [],
              m_ModelVertices := [],
              p_VerticesCount := 0, p_TransparentVerticesCount := 0,
              p_ModelVerticesCount := 0 })) := by
  constructor
  · obtain ⟨f, b, r, l⟩ := nb
    cases f <;> cases b <;> cases r <;> cases l <;> simp [ConstructMeshSt]
  · rintro hair f b r l rfl
    have hs := constructMeshStreams_all_air
      { env := env, d := d, c := c, fwd := f, bwd := b, rgt := r, lft := l }
      hair
    simp [ConstructMeshSt, hs, quadsToVertices]

/-- C2 witness: with all four neighbors present, building the all-air chunk
succeeds with zero geometry. -/
theorem C2_witness :
    ConstructMeshSt env0 d222 stPrev airChunk nbAll =
      (true,
        { m_Vertices := [], m_TransparentVertices := [], m_ModelVertices := [],
          p_VerticesCount := 0, p_TransparentVerticesCount := 0,
          p_ModelVerticesCount := 0 }) :=
  (C2_build_outcomes env0 d222 stPrev airChunk nbAll).2
    (fun _ _ _ => rfl) airChunk airChunk airChunk airChunk rfl

/-- C10: refusal is not atomic.  When a neighbor is absent the three internal
vertex vectors have already been cleared while the three public counts keep
their previous values; only the success path resets and rewrites the counts
(to the merged stream sizes, with the vectors cleared after upload). -/
theorem C10_refusal_state (env : Env) (d : Dims) (st : MeshState)
    (c : ChunkData) (nb : Neighborhood) :
    ((nb.forward = none ∨ nb.backward = none ∨ nb.right = none ∨
        nb.left = none) →
      ConstructMeshSt env d st c nb =
        (false,
          { m_Vertices := [], m_TransparentVertices := [],
            m_ModelVertices := [],
            p_VerticesCount := st.p_VerticesCount,
            p_TransparentVerticesCount := st.p_TransparentVerticesCount,
            p_ModelVerticesCount := st.p_ModelVerticesCount })) ∧
    (∀ f b r l, nb = ⟨some f, some b, some r, some l⟩ →
      ConstructMeshSt env d st c nb =
        (true,
          { m_Vertices := [], m_TransparentVertices := [],
            m_ModelVertices := [],
            p_VerticesCount :=
              (quadsToVertices (ConstructMeshStreams
                { env := env, d := d, c := c, fwd := f, bwd := b,
                  rgt := r, lft := l }).1).length,
            p_TransparentVerticesCount :=
              (quadsToVertices (ConstructMeshStreams
                { env := env, d := d, c := c, fwd := f, bwd := b,
                  rgt := r, lft := l }).2.1).length,
            p_ModelVerticesCount :=
              (ConstructMeshStreams
                { env := env, d := d, c := c, fwd := f, bwd := b,
                  rgt := r, lft := l }).2.2.length })) := by
  constructor
  · intro hmiss
    obtain ⟨f, b, r, l⟩ := nb
    cases f <;> cases b <;> cases r <;> cases l <;> simp_all [ConstructMeshSt]
  · rintro f b r l rfl
    simp [ConstructMeshSt, count_of_uploaded]
    exact ⟨fun hh => by rw [hh]; rfl, fun hh => by rw [hh]; rfl,
      fun hh => by rw [hh]; rfl⟩

/-- C1 counterexample: in the claim's scenario (single solid block at local
(0, 0, 0), all 4 neighbors present and air, Y-adjacent cells air, here at
extents 2 x 2 x 2) the build emits 20 vertices into the main stream, not the
claimed 24: at `y = 0` the `y <= 0` branch can only emit a bottom face, so
the block's top face is never produced (5 faces, not 6). -/
theorem C1_counterexample :
    (quadsToVertices (ConstructMeshStreams miC1).1).length = 20 ∧
    ¬((quadsToVertices (ConstructMeshStreams miC1).1).length = 24) ∧
    (ConstructMeshStreams miC1).2.1 = [] ∧
    (ConstructMeshStreams miC1).2.2 = [] := by
  refine ⟨by decide, by decide, by decide, by decide⟩

/-- C1 amended: for a chunk whose only non-air voxel is a solid, non-model
block at local (0, 0, 0), with all 4 neighbor chunks present and entirely air
and the cell above air, `ConstructMesh` emits exactly 5 faces (20 vertices)
into the main stream — front, backward, left, right and bottom, but no top
face, since the `y <= 0` branch never emits one — and nothing into the
transparent and model streams. -/
theorem C1_amended (mi : MeshInput) (blk : Block)
    (hX : 2 ≤ mi.d.X) (hY : 2 ≤ mi.d.Y) (hZ : 2 ≤ mi.d.Z)
    (hblk : mi.c.blocks 0 0 0 = blk)
    (hty : blk.ty ≠ airTy) (hsolid : blk.isSolid = true)
    (htr : blk.isTransparent = false) (hmod : blk.isModel = false)
    (hair : ∀ x y z, ¬(x = 0 ∧ y = 0 ∧ z = 0) → mi.c.blocks x y z = airBlock)
    (hfwd : ∀ x y z, mi.fwd.blocks x y z = airBlock)
    (hbwd : ∀ x y z, mi.bwd.blocks x y z = airBlock)
    (hrgt : ∀ x y z, mi.rgt.blocks x y z = airBlock)
    (hlft : ∀ x y z, mi.lft.blocks x y z = airBlock) :
    (ConstructMeshStreams mi).1.length = 5 ∧
    (quadsToVertices (ConstructMeshStreams mi).1).length = 20 ∧
    (ConstructMeshStreams mi).2.1 = [] ∧
    (ConstructMeshStreams mi).2.2 = [] := by
  have hvox : ∀ p : Nat × Nat × Nat, p ≠ (0, 0, 0) →
      voxelOut mi p = ([], [], []) := by
    intro p hp
    have hxyz : ¬(p.1 = 0 ∧ p.2.1 = 0 ∧ p.2.2 = 0) := by
      rintro ⟨ha, hb, hc⟩
      apply hp
      obtain ⟨pa, pb, pc⟩ := p
      simp_all
    have hp' : mi.c.blocks p.1 p.2.1 p.2.2 = airBlock := hair _ _ _ hxyz
    exact voxelOut_air mi p.1 p.2.1 p.2.2 (by rw [hp']; rfl)
  have hX0 : 0 < mi.d.X := by omega
  have hY0 : 0 < mi.d.Y := by omega
  have hZ0 : 0 < mi.d.Z := by omega
  have h1 : (ConstructMeshStreams mi).1 = (voxelOut mi (0, 0, 0)).1 := by
    show (fullScan mi.d).flatMap (fun p => (voxelOut mi p).1) = _
    exact fullScan_flatMap_single mi.d _ hX0 hY0 hZ0
      (fun p hp => by rw [hvox p hp])
  have h2 : (ConstructMeshStreams mi).2.1 = (voxelOut mi (0, 0, 0)).2.1 := by
    show (fullScan mi.d).flatMap (fun p => (voxelOut mi p).2.1) = _
    exact fullScan_flatMap_single mi.d _ hX0 hY0 hZ0
      (fun p hp => by rw [hvox p hp])
  have h3 : (ConstructMeshStreams mi).2.2 = (voxelOut mi (0, 0, 0)).2.2 := by
    show (fullScan mi.d).flatMap (fun p => (voxelOut mi p).2.2) = _
    exact fullScan_flatMap_single mi.d _ hX0 hY0 hZ0
      (fun p hp => by rw [hvox p hp])
  have hup : mi.c.blocks 0 1 0 = airBlock := hair 0 1 0 (by simp)
  have horig : (voxelOut mi (0, 0, 0)).1.length = 5 ∧
      (voxelOut mi (0, 0, 0)).2.1 = [] ∧ (voxelOut mi (0, 0, 0)).2.2 = [] := by
    simp [voxelOut, voxelCalls, hblk, hty, hmod, htr, zFaceCalls, xFaceCalls,
      yFaceCalls, hbwd, hlft, hup, solid_face_cond, airBlock]
  refine ⟨?_, ?_, ?_, ?_⟩
  · rw [h1]; exact horig.1
  · rw [quadsToVertices_length, h1, horig.1]
  · rw [h2]; exact horig.2.1
  · rw [h3]; exact horig.2.2

/-- C1 witness: the amended count of 5 faces / 20 vertices holds at the
concrete 2 x 2 x 2 instance of the scenario. -/
theorem C1_witness :
    (ConstructMeshStreams miC1).1.length = 5 ∧
    (quadsToVertices (ConstructMeshStreams miC1).1).length = 20 := by
  have h := C1_amended miC1 stoneBlock (by decide) (by decide) (by decide) rfl
    (by decide) rfl rfl rfl
    (fun x y z hxyz => by
      show chunkC1.blocks x y z = airBlock
      simp only [chunkC1]
      rw [if_neg hxyz])
    (fun _ _ _ => rfl) (fun _ _ _ => rfl) (fun _ _ _ => rfl) (fun _ _ _ => rfl)
  exact ⟨h.1, h.2.1⟩

/-- C3: for a transparent, non-air, non-model block at an interior cell, a
face toward a neighbor cell is emitted — into the transparent stream only —
exactly under the source condition `transparent_face_cond` (neighbor
transparent and of a different type), each face carrying the light sampled at
its neighbor cell; that condition never fires against a same-type neighbor,
and (for any neighbor domain in which air is transparent, per the spec's
block model) it is equivalent to the claim's rule: neighbor transparent and
of a different type, or neighbor air. -/
theorem C3_transparent_interior (mi : MeshInput) (x y z : Nat) (blk : Block)
    (hx1 : 0 < x) (hx2 : x < mi.d.X - 1)
    (hy1 : 0 < y) (hy2 : y < mi.d.Y - 1)
    (hz1 : 0 < z) (hz2 : z < mi.d.Z - 1)
    (hblk : mi.c.blocks x y z = blk)
    (htr : blk.isTransparent = true) (hmod : blk.isModel = false)
    (hty : blk.ty ≠ airTy) :
    (voxelOut mi (x, y, z)).1 = [] ∧
    (voxelOut mi (x, y, z)).2.1 =
      ((if transparent_face_cond blk (mi.c.blocks x y (z + 1)) then
          [emit_face_local mi.env mi.d mi.c .front (x, y, z) blk.ty
            (mi.c.lights x y (z + 1))] else []) ++
       (if transparent_face_cond blk (mi.c.blocks x y (z - 1)) then
          [emit_face_local mi.env mi.d mi.c .backward (x, y, z) blk.ty
            (mi.c.lights x y (z - 1))] else []) ++
       (if transparent_face_cond blk (mi.c.blocks (x + 1) y z) then
          [emit_face_local mi.env mi.d mi.c .right (x, y, z) blk.ty
            (mi.c.lights (x + 1) y z)] else []) ++
       (if transparent_face_cond blk (mi.c.blocks (x - 1) y z) then
          [emit_face_local mi.env mi.d mi.c .left (x, y, z) blk.ty
            (mi.c.lights (x - 1) y z)] else []) ++
       (if transparent_face_cond blk (mi.c.blocks x (y - 1) z) then
          [emit_face_local mi.env mi.d mi.c .bottom (x, y, z) blk.ty
            (mi.c.lights x (y - 1) z)] else []) ++
       (if transparent_face_cond blk (mi.c.blocks x (y + 1) z) then
          [emit_face_local mi.env mi.d mi.c .top (x, y, z) blk.ty
            (mi.c.lights x (y + 1) z)] else [])) ∧
    (∀ nb : Block, nb.ty = blk.ty → transparent_face_cond blk nb = false) ∧
    (∀ nb : Block, (nb.ty = airTy → nb.isTransparent = true) →
      (transparent_face_cond blk nb = true ↔
        ((nb.isTransparent = true ∧ nb.ty ≠ blk.ty) ∨ nb.ty = airTy))) := by
  have hxne : ¬(x = 0) := by omega
  have hyne : ¬(y = 0) := by omega
  have hzne : ¬(z = 0) := by omega
  have hxle : ¬(mi.d.X - 1 ≤ x) := by omega
  have hyle : ¬(mi.d.Y - 1 ≤ y) := by omega
  have hzle : ¬(mi.d.Z - 1 ≤ z) := by omega
  refine ⟨?_, ?_, ?_, ?_⟩
  · simp [voxelOut, voxelCalls, zFaceCalls, xFaceCalls, yFaceCalls, hblk, hty,
      hmod, htr, hxne, hyne, hzne, hxle, hyle, hzle, filterMap_ite]
  · simp [voxelOut, voxelCalls, zFaceCalls, xFaceCalls, yFaceCalls, hblk, hty,
      hmod, htr, hxne, hyne, hzne, hxle, hyle, hzle, filterMap_ite]
  · intro nb h
    simp [transparent_face_cond, h]
  · intro nb hnb
    simp only [transparent_face_cond, Bool.and_eq_true, bne_iff_ne, ne_eq]
    constructor
    · rintro ⟨h1, h2⟩
      exact Or.inl ⟨h1, h2⟩
    · rintro (⟨h1, h2⟩ | h0)
      · exact ⟨h1, h2⟩
      · refine ⟨hnb h0, ?_⟩
        rw [h0]
        exact fun hc => hty hc.symm

/-- C3 witness: the interior-water instance — a lone water block at (1, 1, 1)
surrounded by air contributes nothing to the main stream, and a same-type
neighbor never satisfies the transparent visibility condition. -/
theorem C3_witness :
    (voxelOut miW (1, 1, 1)).1 = [] ∧
    transparent_face_cond waterBlock waterBlock = false := by
  have h := C3_transparent_interior miW 1 1 1 waterBlock (by decide) (by decide)
    (by decide) (by decide) (by decide) (by decide) rfl rfl rfl (by decide)
  exact ⟨h.1, h.2.2.1 waterBlock rfl⟩

/-- C4: for a fixed chunk and neighborhood, any tiling of the scan volume —
any partition into tiles, executed and merged in any order — produces the
same multiset of quads per stream (stated as list permutation) as the
reference single-tile scan, hence any two tilings agree with each other, and
re-running a build on unchanged inputs is (definitionally) reproducible. -/
theorem C4_partition_order_invariance (mi : MeshInput)
    (ts1 ts2 : List (List (Nat × Nat × Nat)))
    (h1 : ts1.flatten.Perm (fullScan mi.d))
    (h2 : ts2.flatten.Perm (fullScan mi.d)) :
    ((runTiles mi ts1).1.Perm (ConstructMeshStreams mi).1 ∧
     (runTiles mi ts1).2.1.Perm (ConstructMeshStreams mi).2.1 ∧
     (runTiles mi ts1).2.2.Perm (ConstructMeshStreams mi).2.2) ∧
    ((runTiles mi ts1).1.Perm (runTiles mi ts2).1 ∧
     (runTiles mi ts1).2.1.Perm (runTiles mi ts2).2.1 ∧
     (runTiles mi ts1).2.2.Perm (runTiles mi ts2).2.2) ∧
    runTiles mi ts1 = runTiles mi ts1 := by
  have key : ∀ ts : List (List (Nat × Nat × Nat)), ts.flatten.Perm (fullScan mi.d) →
      (runTiles mi ts).1.Perm (ConstructMeshStreams mi).1 ∧
      (runTiles mi ts).2.1.Perm (ConstructMeshStreams mi).2.1 ∧
      (runTiles mi ts).2.2.Perm (ConstructMeshStreams mi).2.2 := by
    intro ts h
    refine ⟨?_, ?_, ?_⟩
    · show (ts.flatMap fun t => t.flatMap fun p => (voxelOut mi p).1).Perm
        ((fullScan mi.d).flatMap fun p => (voxelOut mi p).1)
      rw [flatMap_flatten]
      exact h.flatMap_right _
    · show (ts.flatMap fun t => t.flatMap fun p => (voxelOut mi p).2.1).Perm
        ((fullScan mi.d).flatMap fun p => (voxelOut mi p).2.1)
      rw [flatMap_flatten]
      exact h.flatMap_right _
    · show (ts.flatMap fun t => t.flatMap fun p => (voxelOut mi p).2.2).Perm
        ((fullScan mi.d).flatMap fun p => (voxelOut mi p).2.2)
      rw [flatMap_flatten]
      exact h.flatMap_right _
  have k1 := key ts1 h1
  have k2 := key ts2 h2
  exact ⟨k1,
    ⟨k1.1.trans k2.1.symm, k1.2.1.trans k2.2.1.symm, k1.2.2.trans k2.2.2.symm⟩,
    rfl⟩

/-- C4 witness: two concrete partitions of a 1 x 1 x 1 volume, in different
tile orders, merge to permutation-equal main streams. -/
theorem C4_witness :
    (runTiles miT tilesA).1.Perm (runTiles miT tilesB).1 := by
  have h := C4_partition_order_invariance miT tilesA tilesB (by decide) (by decide)
  exact h.2.1.1

/-- C8: the stream-shape invariant.  Both face streams have vertex counts
divisible by 4; every quad of either face stream has its four vertices
sharing one `lighting_level` and one `block_face_lighting`; an air voxel
contributes nothing to any stream; a model-flagged voxel contributes only to
the model stream, via the model emitter, and never to the face streams. -/
theorem C8_stream_shape (mi : MeshInput) :
    (4 ∣ (quadsToVertices (ConstructMeshStreams mi).1).length) ∧
    (4 ∣ (quadsToVertices (ConstructMeshStreams mi).2.1).length) ∧
    (∀ q ∈ (ConstructMeshStreams mi).1, uniformQuad q) ∧
    (∀ q ∈ (ConstructMeshStreams mi).2.1, uniformQuad q) ∧
    (∀ x y z, (mi.c.blocks x y z).ty = airTy →
      voxelOut mi (x, y, z) = ([], [], [])) ∧
    (∀ x y z, (mi.c.blocks x y z).isModel = true →
      (mi.c.blocks x y z).ty ≠ airTy →
      (voxelOut mi (x, y, z)).1 = [] ∧ (voxelOut mi (x, y, z)).2.1 = [] ∧
      (voxelOut mi (x, y, z)).2.2 =
        add_model_local mi.env mi.d mi.c x y z (mi.c.blocks x y z).ty
          (if y < mi.d.Y - 1 then mi.c.lights x (y + 1) z
            else mi.c.lights x y z)) := by
  refine ⟨⟨_, quadsToVertices_length _⟩, ⟨_, quadsToVertices_length _⟩,
    ?_, ?_, ?_, ?_⟩
  · intro q hq
    simp only [ConstructMeshStreams, tileOut, List.mem_flatMap] at hq
    obtain ⟨p, _, hq⟩ := hq
    exact mem_voxelOut_main_uniform mi p q hq
  · intro q hq
    simp only [ConstructMeshStreams, tileOut, List.mem_flatMap] at hq
    obtain ⟨p, _, hq⟩ := hq
    exact mem_voxelOut_transp_uniform mi p q hq
  · intro x y z h
    exact voxelOut_air mi x y z h
  · intro x y z hm hty
    refine ⟨?_, ?_, ?_⟩ <;> simp [voxelOut, voxelCalls, hm, hty]

/-- C8 witness: concrete instances of the invariant — divisibility of the
main stream's vertex count and the air voxel's empty contribution in the
interior-water scenario. -/
theorem C8_witness :
    4 ∣ (quadsToVertices (ConstructMeshStreams miW).1).length ∧
    voxelOut miW (0, 0, 0) = ([], [], []) := by
  have h := C8_stream_shape miW
  exact ⟨h.1, h.2.2.2.2.1 0 0 0 rfl⟩

/-- C7 counterexample: a top face whose neighbor cell is above the grid
ceiling does not carry light 0.  With a lone solid block at (0, 1, 0) in a
2 x 2 x 2 chunk whose light grid is 7 everywhere, the emitted top face sits
in the main stream carrying `lighting_level = 7` (the voxel's own cell
sample), not the claimed 0. -/
theorem C7_counterexample :
    emit_face_local env0 d222 chunkC7 .top (0, 1, 0) 2 7 ∈
      (ConstructMeshStreams miC7).1 ∧
    (emit_face_local env0 d222 chunkC7 .top (0, 1, 0) 2 7).v1.lighting_level = 7 ∧
    ¬((emit_face_local env0 d222 chunkC7 .top (0, 1, 0) 2 7).v1.lighting_level = 0) := by
  refine ⟨by decide, by decide, by decide⟩

/-- C7 amended: the dynamic light attached to an emitted face is one sampled
value shared by its 4 vertices, determined as follows.  For interior voxels
every face samples the neighbor cell in its own direction.  A bottom face at
`y = 0` attaches the light of the cell above the voxel, and a top face at
`y = Y - 1` attaches the voxel's own cell's light — not 0.  At the Z and X
chunk boundaries the two paired faces emitted by one visibility test share a
single sampled value, attributed exactly: the cross-edge neighbor cell's
light when the cross-edge test fired, else the inward cell's light when only
the inward test fired, and no emission when neither fired. -/
theorem C7_light_sampling (mi : MeshInput) (x y z : Nat) (blk : Block)
    (hblk : mi.c.blocks x y z = blk)
    (hty : blk.ty ≠ airTy) (hmod : blk.isModel = false) :
    (0 < x → x < mi.d.X - 1 → 0 < y → y < mi.d.Y - 1 → 0 < z → z < mi.d.Z - 1 →
      (voxelCalls mi x y z).1 =
        ((if (if blk.isTransparent then
              transparent_face_cond blk (mi.c.blocks x y (z + 1))
            else solid_face_cond (mi.c.blocks x y (z + 1))) then
            [(!blk.isTransparent, emit_face_local mi.env mi.d mi.c .front
              (x, y, z) blk.ty (mi.c.lights x y (z + 1)))] else []) ++
         (if (if blk.isTransparent then
              transparent_face_cond blk (mi.c.blocks x y (z - 1))
            else solid_face_cond (mi.c.blocks x y (z - 1))) then
            [(!blk.isTransparent, emit_face_local mi.env mi.d mi.c .backward
              (x, y, z) blk.ty (mi.c.lights x y (z - 1)))] else []) ++
         (if (if blk.isTransparent then
              transparent_face_cond blk (mi.c.blocks (x + 1) y z)
            else solid_face_cond (mi.c.blocks (x + 1) y z)) then
            [(!blk.isTransparent, emit_face_local mi.env mi.d mi.c .right
              (x, y, z) blk.ty (mi.c.lights (x + 1) y z))] else []) ++
         (if (if blk.isTransparent then
              transparent_face_cond blk (mi.c.blocks (x - 1) y z)
            else solid_face_cond (mi.c.blocks (x - 1) y z)) then
            [(!blk.isTransparent, emit_face_local mi.env mi.d mi.c .left
              (x, y, z) blk.ty (mi.c.lights (x - 1) y z))] else []) ++
         (if (if blk.isTransparent then
              transparent_face_cond blk (mi.c.blocks x (y - 1) z)
            else solid_face_cond (mi.c.blocks x (y - 1) z)) then
            [(!blk.isTransparent, emit_face_local mi.env mi.d mi.c .bottom
              (x, y, z) blk.ty (mi.c.lights x (y - 1) z))] else []) ++
         (if (if blk.isTransparent then
              transparent_face_cond blk (mi.c.blocks x (y + 1) z)
            else solid_face_cond (mi.c.blocks x (y + 1) z)) then
            [(!blk.isTransparent, emit_face_local mi.env mi.d mi.c .top
              (x, y, z) blk.ty (mi.c.lights x (y + 1) z))] else []))) ∧
    (y = 0 → 2 ≤ mi.d.Y →
      (voxelCalls mi x y z).1 =
        zFaceCalls mi blk x y z ++ xFaceCalls mi blk x y z ++
        (if solid_face_cond (mi.c.blocks x 1 z) then
          [(true, emit_face_local mi.env mi.d mi.c .bottom (x, 0, z) blk.ty
            (mi.c.lights x 1 z))] else [])) ∧
    (y = mi.d.Y - 1 → 2 ≤ mi.d.Y →
      (voxelCalls mi x y z).1 =
        zFaceCalls mi blk x y z ++ xFaceCalls mi blk x y z ++
        [(true, emit_face_local mi.env mi.d mi.c .top (x, y, z) blk.ty
          (mi.c.lights x y z))]) ∧
    (z = 0 →
      (face_vis_cond blk (mi.bwd.blocks x y (mi.d.Z - 1)) = true →
        zFaceCalls mi blk x y z =
          [(!blk.isTransparent, emit_face_local mi.env mi.d mi.c .front
              (x, y, z) blk.ty (mi.bwd.lights x y (mi.d.Z - 1))),
           (!blk.isTransparent, emit_face_local mi.env mi.d mi.c .backward
              (x, y, z) blk.ty (mi.bwd.lights x y (mi.d.Z - 1)))]) ∧
      (face_vis_cond blk (mi.bwd.blocks x y (mi.d.Z - 1)) = false →
        face_vis_cond blk (mi.c.blocks x y 1) = true →
        zFaceCalls mi blk x y z =
          [(!blk.isTransparent, emit_face_local mi.env mi.d mi.c .front
              (x, y, z) blk.ty (mi.c.lights x y 1)),
           (!blk.isTransparent, emit_face_local mi.env mi.d mi.c .backward
              (x, y, z) blk.ty (mi.c.lights x y 1))]) ∧
      (face_vis_cond blk (mi.bwd.blocks x y (mi.d.Z - 1)) = false →
        face_vis_cond blk (mi.c.blocks x y 1) = false →
        zFaceCalls mi blk x y z = [])) ∧
    (z ≠ 0 → mi.d.Z - 1 ≤ z →
      (face_vis_cond blk (mi.fwd.blocks x y 0) = true →
        zFaceCalls mi blk x y z =
          [(!blk.isTransparent, emit_face_local mi.env mi.d mi.c .front
              (x, y, z) blk.ty (mi.fwd.lights x y 0)),
           (!blk.isTransparent, emit_face_local mi.env mi.d mi.c .backward
              (x, y, z) blk.ty (mi.fwd.lights x y 0))]) ∧
      (face_vis_cond blk (mi.fwd.blocks x y 0) = false →
        face_vis_cond blk (mi.c.blocks x y (mi.d.Z - 2)) = true →
        zFaceCalls mi blk x y z =
          [(!blk.isTransparent, emit_face_local mi.env mi.d mi.c .front
              (x, y, z) blk.ty (mi.c.lights x y (mi.d.Z - 2))),
           (!blk.isTransparent, emit_face_local mi.env mi.d mi.c .backward
              (x, y, z) blk.ty (mi.c.lights x y (mi.d.Z - 2)))]) ∧
      (face_vis_cond blk (mi.fwd.blocks x y 0) = false →
        face_vis_cond blk (mi.c.blocks x y (mi.d.Z - 2)) = false →
        zFaceCalls mi blk x y z = [])) ∧
    (x = 0 →
      (face_vis_cond blk (mi.lft.blocks (mi.d.X - 1) y z) = true →
        xFaceCalls mi blk x y z =
          [(!blk.isTransparent, emit_face_local mi.env mi.d mi.c .left
              (x, y, z) blk.ty (mi.lft.lights (mi.d.X - 1) y z)),
           (!blk.isTransparent, emit_face_local mi.env mi.d mi.c .right
              (x, y, z) blk.ty (mi.lft.lights (mi.d.X - 1) y z))]) ∧
      (face_vis_cond blk (mi.lft.blocks (mi.d.X - 1) y z) = false →
        face_vis_cond blk (mi.c.blocks 1 y z) = true →
        xFaceCalls mi blk x y z =
          [(!blk.isTransparent, emit_face_local mi.env mi.d mi.c .right
              (x, y, z) blk.ty (mi.c.lights 1 y z)),
           (!blk.isTransparent, emit_face_local mi.env mi.d mi.c .left
              (x, y, z) blk.ty (mi.c.lights 1 y z))]) ∧
      (face_vis_cond blk (mi.lft.blocks (mi.d.X - 1) y z) = false →
        face_vis_cond blk (mi.c.blocks 1 y z) = false →
        xFaceCalls mi blk x y z = [])) ∧
    (x ≠ 0 → mi.d.X - 1 ≤ x →
      (face_vis_cond blk (mi.rgt.blocks 0 y z) = true →
        xFaceCalls mi blk x y z =
          [(!blk.isTransparent, emit_face_local mi.env mi.d mi.c .left
              (x, y, z) blk.ty (mi.rgt.lights 0 y z)),
           (!blk.isTransparent, emit_face_local mi.env mi.d mi.c .right
              (x, y, z) blk.ty (mi.rgt.lights 0 y z))]) ∧
      (face_vis_cond blk (mi.rgt.blocks 0 y z) = false →
        face_vis_cond blk (mi.c.blocks (mi.d.X - 2) y z) = true →
        xFaceCalls mi blk x y z =
          [(!blk.isTransparent, emit_face_local mi.env mi.d mi.c .left
              (x, y, z) blk.ty (mi.c.lights (mi.d.X - 2) y z)),
           (!blk.isTransparent, emit_face_local mi.env mi.d mi.c .right
              (x, y, z) blk.ty (mi.c.lights (mi.d.X - 2) y z))]) ∧
      (face_vis_cond blk (mi.rgt.blocks 0 y z) = false →
        face_vis_cond blk (mi.c.blocks (mi.d.X - 2) y z) = false →
        xFaceCalls mi blk x y z = [])) := by
  refine ⟨?_, ?_, ?_, ?_, ?_, ?_, ?_⟩
  · intro hx1 hx2 hy1 hy2 hz1 hz2
    have hxne : ¬(x = 0) := by omega
    have hyne : ¬(y = 0) := by omega
    have hzne : ¬(z = 0) := by omega
    have hxle : ¬(mi.d.X - 1 ≤ x) := by omega
    have hyle : ¬(mi.d.Y - 1 ≤ y) := by omega
    have hzle : ¬(mi.d.Z - 1 ≤ z) := by omega
    cases htrb : blk.isTransparent <;>
      simp [voxelCalls, zFaceCalls, xFaceCalls, yFaceCalls, hblk, hty, hmod,
        htrb, hxne, hyne, hzne, hxle, hyle, hzle, List.append_assoc]
  · intro hy0 hY
    subst hy0
    have h01 : 0 < mi.d.Y - 1 := by omega
    simp [voxelCalls, yFaceCalls, hblk, hty, hmod, h01]
  · intro hyv hY
    subst hyv
    have hne : ¬(mi.d.Y - 1 = 0) := by omega
    have hlt : ¬(mi.d.Y - 1 < mi.d.Y - 1) := by omega
    simp [voxelCalls, yFaceCalls, hblk, hty, hmod, hne, hlt]
  · intro hz0
    subst hz0
    refine ⟨?_, ?_, ?_⟩
    · intro h1
      cases htrb : blk.isTransparent <;>
        simp only [face_vis_cond, htrb] at h1 <;>
        simp_all [zFaceCalls]
    · intro h1 h2
      cases htrb : blk.isTransparent <;>
        simp only [face_vis_cond, htrb] at h1 h2 <;>
        simp_all [zFaceCalls]
    · intro h1 h2
      cases htrb : blk.isTransparent <;>
        simp only [face_vis_cond, htrb] at h1 h2 <;>
        simp_all [zFaceCalls]
  · intro hzne hzge
    refine ⟨?_, ?_, ?_⟩
    · intro h1
      cases htrb : blk.isTransparent <;>
        simp only [face_vis_cond, htrb] at h1 <;>
        simp_all [zFaceCalls, hzne, hzge]
    · intro h1 h2
      cases htrb : blk.isTransparent <;>
        simp only [face_vis_cond, htrb] at h1 h2 <;>
        simp_all [zFaceCalls, hzne, hzge]
    · intro h1 h2
      cases htrb : blk.isTransparent <;>
        simp only [face_vis_cond, htrb] at h1 h2 <;>
        simp_all [zFaceCalls, hzne, hzge]
  · intro hx0
    subst hx0
    refine ⟨?_, ?_, ?_⟩
    · intro h1
      cases htrb : blk.isTransparent <;>
        simp only [face_vis_cond, htrb] at h1 <;>
        simp_all [xFaceCalls]
    · intro h1 h2
      cases htrb : blk.isTransparent <;>
        simp only [face_vis_cond, htrb] at h1 h2 <;>
        simp_all [xFaceCalls]
    · intro h1 h2
      cases htrb : blk.isTransparent <;>
        simp only [face_vis_cond, htrb] at h1 h2 <;>
        simp_all [xFaceCalls]
  · intro hxne hxge
    refine ⟨?_, ?_, ?_⟩
    · intro h1
      cases htrb : blk.isTransparent <;>
        simp only [face_vis_cond, htrb] at h1 <;>
        simp_all [xFaceCalls, hxne, hxge]
    · intro h1 h2
      cases htrb : blk.isTransparent <;>
        simp only [face_vis_cond, htrb] at h1 h2 <;>
        simp_all [xFaceCalls, hxne, hxge]
    · intro h1 h2
      cases htrb : blk.isTransparent <;>
        simp only [face_vis_cond, htrb] at h1 h2 <;>
        simp_all [xFaceCalls, hxne, hxge]

/-- C7 witness: at the concrete top-row instance, the top face emitted at
`y = Y - 1` attaches the voxel's own cell's light. -/
theorem C7_witness :
    (voxelCalls miC7 0 1 0).1 =
      zFaceCalls miC7 stoneBlock 0 1 0 ++ xFaceCalls miC7 stoneBlock 0 1 0 ++
        [(true, emit_face_local miC7.env miC7.d miC7.c .top (0, 1, 0)
          stoneBlock.ty (miC7.c.lights 0 1 0))] := by
  have h := C7_light_sampling miC7 0 1 0 stoneBlock (by decide) (by decide) rfl
  exact h.2.2.1 (by decide) (by decide)

/-- C10 witness: refusing to build (missing forward neighbor) clears the
previously non-empty internal vectors but keeps the stale public counts. -/
theorem C10_witness :
    ConstructMeshSt env0 d222 stPrev airChunk nbMissing =
      (false,
        { m_Vertices := [], m_TransparentVertices := [], m_ModelVertices := [],
          p_VerticesCount := 12, p_TransparentVerticesCount := 34,
          p_ModelVerticesCount := 56 }) :=
  (C10_refusal_state env0 d222 stPrev airChunk nbMissing).1 (Or.inl rfl)

end Minecraft
